import Mathlib

/-!
Shallow embedding of `live_topstats.py` (HLL_bot): a leaderboard / VIP-award
plugin.  Pure computations (metrics, sorting, line formatting, the
grant-eligibility rules) are translated into executable Lean definitions.
External effects are made explicit:

* the VIP ledger (`rcon.get_vip_ids()`) is passed in as a list of records;
* grant creation (`rcon.add_vip`) is recorded in an output list of
  `GrantCall`s;
* each ledger query performed by `is_vip_for_less_than_xh` is recorded in a
  list of queried player ids;
* wall-clock `datetime.now(timezone.utc)` is a parameter `now : Int`
  (a UTC timestamp in seconds); `timedelta(hours=h)` is `3600 * h`;
* the local-timezone `strftime` display of a timestamp is abstracted to
  `toString` of the timestamp (no claim depends on the rendering);
* Python's `round(x, 1)` on floats is modelled on `ℚ`; the half-way tie
  behaviour of binary floating point is not modelled (no claim depends on
  tie behaviour);
* a Python `UnboundLocalError` raised by `get_top` on an unexpected
  `callmode` is modelled as `Option.none`.

Module-level configuration constants of the source are gathered in a
`Config` record (the source marks them "you must review/change these"), and
the two weighting coefficients are explicit parameters of the metric
functions.
-/

namespace HLLTopStats

/-- One player's (or one squad's) stat record, as drawn from the
`get_team_view` snapshot.  Squad records use the same shape; the fields a
squad record does not carry in Python (`player_id`, `role`, `unit_name`)
are simply never consulted on the squad code paths. -/
structure StatRec where
  player_id : String
  name : String
  team : String
  role : String
  unit_name : String
  kills : Nat
  deaths : Nat
  combat : Nat
  offense : Nat
  defense : Nat
  support : Nat
  deriving Repr, DecidableEq

/-- One entry of the VIP ledger as returned by `rcon.get_vip_ids()`:
a player id and an optional expiry timestamp (`none` = non-expiring). -/
structure VipItem where
  player_id : String
  vip_expiration : Option Int
  deriving Repr, DecidableEq

/-- One `rcon.add_vip` invocation: player id, display label, expiry
timestamp (UTC seconds). -/
structure GrantCall where
  player_id : String
  label : String
  expiration : Int
  deriving Repr, DecidableEq

/-- The observable result of a `get_top` run: the emitted lines (each
Python `output += "...\n"` appends one line), the grants created, and the
player ids for which the VIP ledger was queried. -/
structure TopResult where
  output : List String
  grants : List GrantCall
  queries : List String
  deriving Repr, DecidableEq

/-- The module-level configuration constants of `live_topstats.py`. -/
structure Config where
  TOPS_CHAT : Nat
  TOPS_CHAT_DETAIL_SQUADS : Nat
  TOPS_MATCHEND : Nat
  TOPS_MATCHEND_DETAIL_SQUADS : Nat
  VIP_WINNERS : Nat
  VIP_COMMANDER_MIN_PLAYTIME_MINS : ℚ
  VIP_COMMANDER_MIN_SUPPORT_SCORE : Nat
  SEED_LIMIT : Nat
  VIP_HOURS : Nat
  deriving Repr, DecidableEq

/-- `LANG = 0` (english), as configured in the source. -/
def LANG : Nat := 0

/-- The `TRANSL` table (key ↦ the four language variants). -/
def TRANSL (key : String) : List String :=
  if key = "nostatsyet" then ["No stats yet", "Pas de stats", "noch keine Statistiken", "Sem estatísticas ainda"]
  else if key = "allies" then ["all", "all", "Allierte", "ALIADOS"]
  else if key = "axis" then ["axi", "axe", "Achsenmächte", "EIXO"]
  else if key = "best_players" then ["Best players", "Meilleurs joueurs", "Beste Spieler", "TOP »BAIN« PLAYERS"]
  else if key = "armycommander" then ["Commander", "Commandant", "Kommandant", "TOP COMANDANTE"]
  else if key = "infantry" then ["Infantry", "Infanterie", "Infanterie", "TOP INFANTARIA"]
  else if key = "tankers" then ["Tankers", "Tankistes", "Panzerspieler", "TOP TANKISTA"]
  else if key = "best_squads" then ["Best squads", "Meilleures squads", "Beste Mannschaften", "TOP ESQUADRÃO"]
  else if key = "offense" then ["attack", "attaque", "Angriff", "ATAQUE"]
  else if key = "defense" then ["defense", "défense", "Verteidigung", "DEFESA"]
  else if key = "combat" then ["combat", "combat", "Kampf", "COMBATE"]
  else if key = "support" then ["support", "soutien", "Unterstützung", "SUPORTE"]
  else if key = "ratio" then ["ratio", "ratio", "Verhältnis", "PROPORÇÃO"]
  else if key = "killrate" then ["kills/min", "kills/min", "Kills/min", "ABATERS/MIN"]
  else if key = "vip_until" then ["VIP until", "VIP jusqu'au", "VIP bis", "VIP ATÉ"]
  else if key = "already_vip" then ["Already VIP !", "Déjà VIP !", "bereits VIP !", "JÁ É VIP!"]
  else []

/-- `TRANSL[key][LANG]`. -/
def transl (key : String) : String := (TRANSL key).getD LANG ""

/-- `is_vip_for_less_than_xh`: scans the ledger for the first entry whose
`player_id` matches AND whose `vip_expiration` is not `None`; returns
whether that expiry is earlier than `now + vip_delay_hours`.  Falls
through (to `true`) on entries that do not satisfy both conditions. -/
def is_vip_for_less_than_xh (actual_vips : List VipItem) (player_id : String)
    (vip_delay_hours : Nat) (now : Int) : Bool :=
  match actual_vips with
  | [] => true
  | item :: rest =>
    match item.vip_expiration with
    | some vip_expiration =>
      if item.player_id = player_id then
        decide (vip_expiration < now + 3600 * (vip_delay_hours : Int))
      else
        is_vip_for_less_than_xh rest player_id vip_delay_hours now
    | none => is_vip_for_less_than_xh rest player_id vip_delay_hours now

/-- `give_xh_vip`: creates the grant (the `rcon.add_vip` call) and returns
the "VIP until …" announcement line. -/
def give_xh_vip (now : Int) (player_id player_name : String)
    (hours_awarded : Nat) : GrantCall × String :=
  let combined_name := player_name ++ " Top-Player"
  let now_plus_xh := now + 3600 * (hours_awarded : Int)
  (⟨player_id, combined_name, now_plus_xh⟩,
   transl "vip_until" ++ " " ++ toString now_plus_xh ++ " !")

/-- Dynamic field access `sample[field]`, rendered as the string the
f-string interpolation would produce. -/
def fieldStr (r : StatRec) : String → String
  | "name" => r.name
  | "kills" => toString r.kills
  | "deaths" => toString r.deaths
  | "combat" => toString r.combat
  | "offense" => toString r.offense
  | "defense" => toString r.defense
  | "support" => toString r.support
  | _ => ""

/-- Python `round(x, 1)` (one decimal), on rationals. -/
def round1 (q : ℚ) : ℚ := (round (10 * q) : ℤ) / 10

/-- Python `int(x)`: truncation toward zero. -/
def truncQ (q : ℚ) : ℤ := if q < 0 then ⌈q⌉ else ⌊q⌋

/-- `ratio`: kills/deaths, deaths of 0 floored to 1, rounded to one
decimal. -/
def ratio (obj : StatRec) : ℚ :=
  let deaths := obj.deaths
  let deaths := if deaths = 0 then 1 else deaths
  round1 ((obj.kills : ℚ) / (deaths : ℚ))

/-- `real_offdef` with the `OFFENSEDEFENSE_RATIO` coefficient as explicit
parameter `w`. -/
def real_offdef (w : ℚ) (obj : StatRec) : ℤ :=
  if w = 0 then (obj.offense : ℤ) * (obj.defense : ℤ)
  else truncQ ((obj.offense : ℚ) * ((obj.defense : ℚ) * |w|))

/-- `teamplay` with the `COMBATSUPPORT_RATIO` coefficient as explicit
parameter `w`. -/
def teamplay (w : ℚ) (obj : StatRec) : ℤ :=
  if w = 0 then (obj.combat : ℤ) + (obj.support : ℤ)
  else truncQ ((obj.combat : ℚ) + (obj.support : ℚ) * |w|)

/-- `killrate`: kills per approximate playtime-minute. -/
def killrate (obj : StatRec) : ℚ :=
  let kills := obj.kills
  let offense := obj.offense
  let defense := obj.defense
  if kills = 0 then 0
  else if offense = 0 ∧ defense = 0 then 0
  else round1 ((kills : ℚ) / (((offense : ℚ) + (defense : ℚ)) / 20))

/-- `sorted(data_bucket, key=sortkey, reverse=True)`: stable descending
sort by the key (Python's sort is stable; modelled by insertion sort,
which is stable for the total preorder `sortkey b ≤ sortkey a`). -/
def sortedDesc (sortkey : StatRec → ℚ) (l : List StatRec) : List StatRec :=
  l.insertionSort (fun a b => sortkey b ≤ sortkey a)

/-- The roster line appended under a top squad: the names of all players of
`squadtype_allplayers` whose `(team, unit_name)` equals the squad's
`(team, name)`, joined by "; ". -/
def rosterLine (squadtype_allplayers : List StatRec) (sample_vip : StatRec) : String :=
  String.intercalate "; "
    ((squadtype_allplayers.filter
      (fun d => d.team = sample_vip.team ∧ d.unit_name = sample_vip.name)).map
      (fun d => d.name))

/-- The listing line for one sample: the two raw fields (separated by
" ; ") when `fourth_data` is empty, the computed `sortkey` value otherwise;
squad lines get the "■ " marker prefix. -/
def listLine (calltype : String) (sortkey : StatRec → ℚ)
    (first_data second_data third_data fourth_data : String)
    (sample : StatRec) : String :=
  if fourth_data = "" then
    (if calltype = "squad" then "■ " else "")
      ++ fieldStr sample first_data ++ " (" ++ transl sample.team ++ "): "
      ++ fieldStr sample second_data ++ " ; " ++ fieldStr sample third_data
  else
    fieldStr sample first_data ++ " (" ++ transl sample.team ++ "): "
      ++ toString (sortkey sample)

/-- The `if sortkey(sample) != 0:` block of the `get_top` loop body: the
listing line for `sample` followed, on the squad path within the
member-detail window, by one roster line for each of the first
`show_members` entries of `sorted_data`. -/
def emit_lines (calltype : String) (sortkey : StatRec → ℚ)
    (first_data second_data third_data fourth_data : String)
    (show_members : Nat) (sorted_data squadtype_allplayers : List StatRec)
    (iteration : Nat) (sample : StatRec) : List String :=
  if sortkey sample ≠ 0 then
    let line := listLine calltype sortkey first_data second_data third_data
      fourth_data sample
    let rosters :=
      if calltype = "squad" ∧ 0 < show_members ∧ iteration ≤ show_members then
        (sorted_data.take show_members).map (rosterLine squadtype_allplayers)
      else []
    line :: rosters
  else []

/-- Result of the VIP block of the `get_top` loop body for one sample:
appended lines, grants created, ledger queries, and whether the Python
`continue` fired (skipping the `iteration += 1`). -/
structure FlowOut where
  lines : List String
  grants : List GrantCall
  queries : List String
  skipped : Bool
  deriving Repr, DecidableEq

/-- The `# Give VIP to players` block of the `get_top` loop body.  Note:
in the source this block is OUTSIDE the `if sortkey(sample) != 0:` test,
so it runs for every sample of the slice, zero-scoring or not. -/
def grant_flow (cfg : Config) (vips : List VipItem) (now : Int)
    (current_players : Nat) (callmode calltype second_data : String)
    (iteration : Nat) (sample : StatRec) : FlowOut :=
  if callmode = "matchend" ∧ calltype = "player"
      ∧ 0 < cfg.VIP_WINNERS ∧ 0 < cfg.VIP_HOURS
      ∧ cfg.SEED_LIMIT ≤ current_players
      ∧ second_data ≠ "kills"
      ∧ iteration ≤ cfg.VIP_WINNERS then
    if sample.role = "armycommander"
        ∧ (((sample.offense : ℚ) + (sample.defense : ℚ)) / 20
              < cfg.VIP_COMMANDER_MIN_PLAYTIME_MINS
           ∨ sample.support < cfg.VIP_COMMANDER_MIN_SUPPORT_SCORE) then
      ⟨[], [], [], true⟩
    else
      if is_vip_for_less_than_xh vips sample.player_id cfg.VIP_HOURS now then
        let g := give_xh_vip now sample.player_id sample.name cfg.VIP_HOURS
        ⟨[g.2], [g.1], [sample.player_id], false⟩
      else
        ⟨[transl "already_vip"], [], [sample.player_id], false⟩
  else ⟨[], [], [], false⟩

/-- The `for sample in sorted_data[:tops_limit]:` loop of `get_top`,
carrying the 1-based `iteration` counter. -/
def process (cfg : Config) (vips : List VipItem) (now : Int)
    (current_players : Nat) (callmode calltype : String)
    (sortkey : StatRec → ℚ)
    (first_data second_data third_data fourth_data : String)
    (show_members : Nat) (sorted_data squadtype_allplayers : List StatRec) :
    List StatRec → Nat → TopResult
  | [], _ => ⟨[], [], []⟩
  | sample :: rest, iteration =>
    let el := emit_lines calltype sortkey first_data second_data third_data
      fourth_data show_members sorted_data squadtype_allplayers iteration sample
    let fl := grant_flow cfg vips now current_players callmode calltype
      second_data iteration sample
    let next_iter := if fl.skipped then iteration else iteration + 1
    let r := process cfg vips now current_players callmode calltype sortkey
      first_data second_data third_data fourth_data show_members sorted_data
      squadtype_allplayers rest next_iter
    ⟨el ++ fl.lines ++ r.output, fl.grants ++ r.grants, fl.queries ++ r.queries⟩

/-- `get_top`.  `none` models the `UnboundLocalError` the Python function
raises (before emitting anything) when `callmode` is neither "chat" nor
"matchend", since `tops_limit` is then never assigned. -/
def get_top (cfg : Config) (vips : List VipItem) (now : Int)
    (current_players : Nat) (callmode calltype : String)
    (data_bucket : List StatRec) (sortkey : StatRec → ℚ)
    (first_data second_data third_data fourth_data : String)
    (squadtype_allplayers : List StatRec) : Option TopResult :=
  if callmode = "chat" ∨ callmode = "matchend" then
    let tops_limit :=
      if callmode = "matchend" then cfg.TOPS_MATCHEND else cfg.TOPS_CHAT
    let show_members :=
      if callmode = "matchend" then cfg.TOPS_MATCHEND_DETAIL_SQUADS
      else cfg.TOPS_CHAT_DETAIL_SQUADS
    let sorted_data := sortedDesc sortkey data_bucket
    some (process cfg vips now current_players callmode calltype sortkey
      first_data second_data third_data fourth_data show_members sorted_data
      squadtype_allplayers (sorted_data.take tops_limit) 1)
  else none

/-- The nine `get_top` calls of `stats_gather`, with the five buckets (the
output of `team_view_stats`) and the two weighting coefficients as
parameters. -/
def stats_gather (cfg : Config) (vips : List VipItem) (now : Int)
    (current_players : Nat) (callmode : String)
    (all_commanders all_players_infantry all_players_armor
      all_squads_infantry all_squads_armor : List StatRec)
    (w_offdef w_combatsupport : ℚ) :
    List (Option TopResult) :=
  [get_top cfg vips now current_players callmode "player" all_commanders
      (fun r => ((teamplay w_combatsupport r : ℤ) : ℚ)) "name" "combat" "support" "" all_commanders,
   get_top cfg vips now current_players callmode "player" all_players_infantry
      (fun r => ((real_offdef w_offdef r : ℤ) : ℚ)) "name" "offense" "defense" "" all_players_infantry,
   get_top cfg vips now current_players callmode "player" all_players_infantry
      (fun r => ((teamplay w_combatsupport r : ℤ) : ℚ)) "name" "combat" "support" "" all_players_infantry,
   get_top cfg vips now current_players callmode "player" all_players_infantry
      ratio "name" "kills" "deaths" "" all_players_infantry,
   get_top cfg vips now current_players callmode "player" all_players_infantry
      killrate "name" "kills" "offense" "defense" all_players_infantry,
   get_top cfg vips now current_players callmode "squad" all_squads_infantry
      (fun r => ((real_offdef w_offdef r : ℤ) : ℚ)) "name" "offense" "defense" "" all_players_infantry,
   get_top cfg vips now current_players callmode "squad" all_squads_infantry
      (fun r => ((teamplay w_combatsupport r : ℤ) : ℚ)) "name" "combat" "support" "" all_players_infantry,
   get_top cfg vips now current_players callmode "squad" all_squads_armor
      (fun r => ((real_offdef w_offdef r : ℤ) : ℚ)) "name" "offense" "defense" "" all_players_armor,
   get_top cfg vips now current_players callmode "squad" all_squads_armor
      (fun r => ((teamplay w_combatsupport r : ℤ) : ℚ)) "name" "combat" "support" "" all_players_armor]

/-- The listing-only part of the `get_top` loop: what the loop emits when
the VIP block contributes nothing (it mentions neither the ledger, the
clock, nor the player count). -/
def listing_only (calltype : String) (sortkey : StatRec → ℚ)
    (first_data second_data third_data fourth_data : String)
    (show_members : Nat) (sorted_data squadtype_allplayers : List StatRec) :
    List StatRec → Nat → List String
  | [], _ => []
  | sample :: rest, iteration =>
    emit_lines calltype sortkey first_data second_data third_data fourth_data
        show_members sorted_data squadtype_allplayers iteration sample
      ++ listing_only calltype sortkey first_data second_data third_data
        fourth_data show_members sorted_data squadtype_allplayers rest
        (iteration + 1)

/-- The expiry of the first ledger entry whose `player_id` matches and
whose `vip_expiration` is present — the entry that decides
`is_vip_for_less_than_xh`. -/
def firstExpiring : List VipItem → String → Option Int
  | [], _ => none
  | item :: rest, player_id =>
    match item.vip_expiration with
    | some e =>
      if item.player_id = player_id then some e
      else firstExpiring rest player_id
    | none => firstExpiring rest player_id

/-- Whether the ledger lets a new grant of `h` hours through: the first
expiring entry for the player is absent, or expires before `now + h`
hours.  Entries with absent expiry never block. -/
def ledger_allows (vips : List VipItem) (player_id : String) (h : Nat)
    (now : Int) : Bool :=
  match firstExpiring vips player_id with
  | none => true
  | some e => decide (e < now + 3600 * (h : Int))

/-- A player stat record from named counters (unit_name left empty). -/
def mkP (pid nm tm rl : String) (k d c o df s : Nat) : StatRec :=
  ⟨pid, nm, tm, rl, "", k, d, c, o, df, s⟩

/-- The configuration shipped in the source file: `TOPS_CHAT = 3`,
`TOPS_CHAT_DETAIL_SQUADS = 0`, `TOPS_MATCHEND = 3`,
`TOPS_MATCHEND_DETAIL_SQUADS = 1`, `VIP_WINNERS = 1`,
`VIP_COMMANDER_MIN_PLAYTIME_MINS = 40`,
`VIP_COMMANDER_MIN_SUPPORT_SCORE = 2000`, `SEED_LIMIT = 70`,
`VIP_HOURS = 14`. -/
def cfg0 : Config := ⟨3, 0, 3, 1, 1, 40, 2000, 70, 14⟩

/-- `cfg0` with the chat squad-member-detail depth raised to 2. -/
def cfg8 : Config := ⟨3, 2, 3, 1, 1, 40, 2000, 70, 14⟩

/-- A non-zero-scoring infantry player. -/
def p1 : StatRec := mkP "p1" "P1" "allies" "rifleman" 10 2 300 100 100 50

/-- A player all of whose counters are zero (metric score 0). -/
def pz : StatRec := mkP "pz" "PZ" "axis" "rifleman" 0 0 0 0 0 0

/-- A commander below both the playtime and the support minimums. -/
def cmdrLow : StatRec := mkP "c1" "C1" "allies" "armycommander" 5 1 400 40 40 100

/-- Squad record "able" (allies). -/
def sqA : StatRec := ⟨"", "able", "allies", "", "", 0, 0, 0, 50, 10, 0⟩

/-- Squad record "baker" (axis). -/
def sqB : StatRec := ⟨"", "baker", "axis", "", "", 0, 0, 0, 20, 10, 0⟩

/-- Member of squad "able". -/
def mA1 : StatRec := ⟨"a1", "Alice", "allies", "rifleman", "able", 0, 0, 0, 0, 0, 0⟩

/-- Member of squad "able". -/
def mA2 : StatRec := ⟨"a2", "Abe", "allies", "rifleman", "able", 0, 0, 0, 0, 0, 0⟩

/-- Member of squad "baker". -/
def mB1 : StatRec := ⟨"b1", "Bob", "axis", "rifleman", "baker", 0, 0, 0, 0, 0, 0⟩

/-- Players with combat scores 50, 50, 30, 0, 10 in bucket order. -/
def q1 : StatRec := mkP "q1" "Q1" "allies" "r" 0 0 50 0 0 0

/-- See `q1`. -/
def q2 : StatRec := mkP "q2" "Q2" "axis" "r" 0 0 50 0 0 0

/-- See `q1`. -/
def q3 : StatRec := mkP "q3" "Q3" "allies" "r" 0 0 30 0 0 0

/-- See `q1`. -/
def q4 : StatRec := mkP "q4" "Q4" "axis" "r" 0 0 0 0 0 0

/-- See `q1`. -/
def q5 : StatRec := mkP "q5" "Q5" "allies" "r" 0 0 10 0 0 0

/-! ## Theorems -/

/-- The VIP block contributes nothing unless `callmode` is "matchend". -/
theorem grant_flow_not_matchend {cfg : Config} {vips : List VipItem}
    {now : Int} {cp : Nat} {callmode calltype second_data : String}
    {iteration : Nat} {sample : StatRec} (h : callmode ≠ "matchend") :
    grant_flow cfg vips now cp callmode calltype second_data iteration sample
      = ⟨[], [], [], false⟩ := by
  unfold grant_flow
  rw [if_neg]
  rintro ⟨h1, -⟩
  exact h h1

/-- The VIP block contributes nothing unless `calltype` is "player". -/
theorem grant_flow_not_player {cfg : Config} {vips : List VipItem}
    {now : Int} {cp : Nat} {callmode calltype second_data : String}
    {iteration : Nat} {sample : StatRec} (h : calltype ≠ "player") :
    grant_flow cfg vips now cp callmode calltype second_data iteration sample
      = ⟨[], [], [], false⟩ := by
  unfold grant_flow
  rw [if_neg]
  rintro ⟨-, h2, -⟩
  exact h h2

/-- The VIP block contributes nothing when grants are disabled: zero
winners, zero hours, or a player count below the seed limit. -/
theorem grant_flow_disabled {cfg : Config} {vips : List VipItem}
    {now : Int} {cp : Nat} {callmode calltype second_data : String}
    {iteration : Nat} {sample : StatRec}
    (h : cfg.VIP_WINNERS = 0 ∨ cfg.VIP_HOURS = 0 ∨ cp < cfg.SEED_LIMIT) :
    grant_flow cfg vips now cp callmode calltype second_data iteration sample
      = ⟨[], [], [], false⟩ := by
  unfold grant_flow
  rw [if_neg]
  rintro ⟨-, -, hW, hH, hseed, -⟩
  rcases h with h | h | h
  · omega
  · omega
  · omega

/-- When the VIP block contributes nothing, the loop reduces to its
listing-only part. -/
theorem process_eq_listing_only {cfg : Config} {vips : List VipItem}
    {now : Int} {cp : Nat} {callmode calltype : String}
    {sortkey : StatRec → ℚ} {f s t fo : String} {sm : Nat}
    {sorted allp : List StatRec}
    (H : ∀ iteration sample,
      grant_flow cfg vips now cp callmode calltype s iteration sample
        = ⟨[], [], [], false⟩) :
    ∀ (l : List StatRec) (iteration : Nat),
      process cfg vips now cp callmode calltype sortkey f s t fo sm sorted
          allp l iteration
        = ⟨listing_only calltype sortkey f s t fo sm sorted allp l iteration,
           [], []⟩ := by
  intro l
  induction l with
  | nil => intro iteration; rfl
  | cons sample rest ih =>
    intro iteration
    simp only [process, listing_only, H iteration sample, ih]
    simp

/-- C5: in matchEnd player mode, if `VIP_WINNERS` is 0, or `VIP_HOURS` is
0, or the in-session player count is below `SEED_LIMIT`, then no grant is
created and no grant-ledger call is made for any ranked player while the
listing lines are still produced exactly as otherwise (the grant-free
`listing_only`, which depends on neither the ledger, the clock, nor the
player count); and a `SEED_LIMIT` of 0 makes the result independent of the
player count (the population gate never blocks). -/
theorem claim5_grant_gates (cfg : Config) (vips : List VipItem) (now : Int)
    (cp : Nat) (calltype : String) (bucket : List StatRec)
    (sortkey : StatRec → ℚ) (f s t fo : String) (allp : List StatRec) :
    (cfg.VIP_WINNERS = 0 ∨ cfg.VIP_HOURS = 0 ∨ cp < cfg.SEED_LIMIT →
      get_top cfg vips now cp "matchend" calltype bucket sortkey f s t fo
          allp
        = some ⟨listing_only calltype sortkey f s t fo
            cfg.TOPS_MATCHEND_DETAIL_SQUADS (sortedDesc sortkey bucket) allp
            ((sortedDesc sortkey bucket).take cfg.TOPS_MATCHEND) 1, [], []⟩)
    ∧ (cfg.SEED_LIMIT = 0 → ∀ cp1 cp2 : Nat,
      get_top cfg vips now cp1 "matchend" calltype bucket sortkey f s t fo
          allp
        = get_top cfg vips now cp2 "matchend" calltype bucket sortkey f s t
          fo allp) := by
  constructor
  · intro h
    unfold get_top
    rw [if_pos (Or.inr rfl)]
    simp only [reduceIte]
    rw [process_eq_listing_only (fun iteration sample => grant_flow_disabled h)]
  · intro h cp1 cp2
    have hflow : ∀ iteration sample,
        grant_flow cfg vips now cp1 "matchend" calltype s iteration sample
          = grant_flow cfg vips now cp2 "matchend" calltype s iteration
            sample := by
      intro iteration sample
      simp only [grant_flow, h, Nat.zero_le, true_and]
    have hproc : ∀ (l : List StatRec) (iteration : Nat),
        process cfg vips now cp1 "matchend" calltype sortkey f s t fo
            cfg.TOPS_MATCHEND_DETAIL_SQUADS (sortedDesc sortkey bucket) allp
            l iteration
          = process cfg vips now cp2 "matchend" calltype sortkey f s t fo
            cfg.TOPS_MATCHEND_DETAIL_SQUADS (sortedDesc sortkey bucket) allp
            l iteration := by
      intro l
      induction l with
      | nil => intro iteration; rfl
      | cons sample rest ih =>
        intro iteration
        simp only [process, hflow iteration sample, ih]
    unfold get_top
    rw [if_pos (Or.inr rfl)]
    simp only [reduceIte]
    rw [hproc]
    simp

/-- Witness for C5: with the stock configuration and only 65 of 70
required players in session, `get_top` at match end yields the plain
listing with no grants and no ledger queries; and with the seed limit at
0 the result does not depend on the player count. -/
theorem claim5_witness :
    (get_top cfg0 [⟨"p1", some 1000⟩] 0 65 "matchend" "player" [p1]
        (fun r => ((teamplay 0 r : ℤ) : ℚ)) "name" "combat" "support" ""
        [p1]
      = some ⟨listing_only "player" (fun r => ((teamplay 0 r : ℤ) : ℚ))
          "name" "combat" "support" "" cfg0.TOPS_MATCHEND_DETAIL_SQUADS
          (sortedDesc (fun r => ((teamplay 0 r : ℤ) : ℚ)) [p1]) [p1]
          ((sortedDesc (fun r => ((teamplay 0 r : ℤ) : ℚ)) [p1]).take
            cfg0.TOPS_MATCHEND) 1, [], []⟩)
    ∧ get_top ⟨3, 0, 3, 1, 1, 40, 2000, 0, 14⟩ [] 0 1 "matchend" "player"
        [p1] (fun r => ((teamplay 0 r : ℤ) : ℚ)) "name" "combat" "support"
        "" [p1]
      = get_top ⟨3, 0, 3, 1, 1, 40, 2000, 0, 14⟩ [] 0 99 "matchend"
        "player" [p1] (fun r => ((teamplay 0 r : ℤ) : ℚ)) "name" "combat"
        "support" "" [p1] :=
  ⟨(claim5_grant_gates cfg0 [⟨"p1", some 1000⟩] 0 65 "player" [p1]
      (fun r => ((teamplay 0 r : ℤ) : ℚ)) "name" "combat" "support" ""
      [p1]).1 (Or.inr (Or.inr (by decide))),
   (claim5_grant_gates ⟨3, 0, 3, 1, 1, 40, 2000, 0, 14⟩ [] 0 1 "player"
      [p1] (fun r => ((teamplay 0 r : ℤ) : ℚ)) "name" "combat" "support"
      "" [p1]).2 rfl 1 99⟩

/-- C4: in matchEnd player mode, a ranked player whose role is
"armycommander" and whose approximate playtime `(offense + defense) / 20`
is below `VIP_COMMANDER_MIN_PLAYTIME_MINS` or whose support score is below
`VIP_COMMANDER_MIN_SUPPORT_SCORE` gets no grant and no grant/already-VIP
text (only the listing line), even within the `VIP_WINNERS` window, and
consumes no slot of the awarded-count budget: the rest of the ranking is
processed at the same iteration index. -/
theorem claim4_commander_guard (cfg : Config) (vips : List VipItem)
    (now : Int) (cp : Nat) (sortkey : StatRec → ℚ) (f s t fo : String)
    (sm : Nat) (sorted allp : List StatRec) (rest : List StatRec)
    (iteration : Nat) (sample : StatRec)
    (hrole : sample.role = "armycommander")
    (hguard : ((sample.offense : ℚ) + (sample.defense : ℚ)) / 20
        < cfg.VIP_COMMANDER_MIN_PLAYTIME_MINS
      ∨ sample.support < cfg.VIP_COMMANDER_MIN_SUPPORT_SCORE)
    (hW : 0 < cfg.VIP_WINNERS) (hH : 0 < cfg.VIP_HOURS)
    (hseed : cfg.SEED_LIMIT ≤ cp) (hsd : s ≠ "kills")
    (hit : iteration ≤ cfg.VIP_WINNERS) :
    process cfg vips now cp "matchend" "player" sortkey f s t fo sm sorted
        allp (sample :: rest) iteration
      = ⟨emit_lines "player" sortkey f s t fo sm sorted allp iteration
            sample
          ++ (process cfg vips now cp "matchend" "player" sortkey f s t fo
            sm sorted allp rest iteration).output,
         (process cfg vips now cp "matchend" "player" sortkey f s t fo sm
           sorted allp rest iteration).grants,
         (process cfg vips now cp "matchend" "player" sortkey f s t fo sm
           sorted allp rest iteration).queries⟩ := by
  have hflow : grant_flow cfg vips now cp "matchend" "player" s iteration
      sample = ⟨[], [], [], true⟩ := by
    unfold grant_flow
    rw [if_pos ⟨rfl, rfl, hW, hH, hseed, hsd, hit⟩, if_pos ⟨hrole, hguard⟩]
  simp only [process, hflow]
  simp

/-- Witness for C4: the sub-par commander `cmdrLow` (support 100 < 2000)
ranked #1 at match end with 80 players in session: the loop step emits
only the listing line and hands the tail on at the same iteration. -/
theorem claim4_witness :
    process cfg0 [] 0 80 "matchend" "player"
        (fun r => ((teamplay 0 r : ℤ) : ℚ)) "name" "combat" "support" "" 1
        [cmdrLow, p1] [cmdrLow, p1] [cmdrLow, p1] 1
      = ⟨emit_lines "player" (fun r => ((teamplay 0 r : ℤ) : ℚ)) "name"
            "combat" "support" "" 1 [cmdrLow, p1] [cmdrLow, p1] 1 cmdrLow
          ++ (process cfg0 [] 0 80 "matchend" "player"
            (fun r => ((teamplay 0 r : ℤ) : ℚ)) "name" "combat" "support"
            "" 1 [cmdrLow, p1] [cmdrLow, p1] [p1] 1).output,
         (process cfg0 [] 0 80 "matchend" "player"
           (fun r => ((teamplay 0 r : ℤ) : ℚ)) "name" "combat" "support"
           "" 1 [cmdrLow, p1] [cmdrLow, p1] [p1] 1).grants,
         (process cfg0 [] 0 80 "matchend" "player"
           (fun r => ((teamplay 0 r : ℤ) : ℚ)) "name" "combat" "support"
           "" 1 [cmdrLow, p1] [cmdrLow, p1] [p1] 1).queries⟩ :=
  claim4_commander_guard cfg0 [] 0 80 (fun r => ((teamplay 0 r : ℤ) : ℚ))
    "name" "combat" "support" "" 1 [cmdrLow, p1] [cmdrLow, p1] [p1] 1
    cmdrLow (by decide) (Or.inr (by decide)) (by decide) (by decide)
    (by decide) (by decide) (by decide)

/-- C2 counterexample: with the stock configuration at match end (80
players in session), a bucket holding only the zero-scoring player `pz`
(score 0 on the `teamplay` metric with weight 0): contrary to the claim,
the grant flow still runs for the zero-scoring record — the ledger is
queried for "pz", a 14-hour grant is created, and its announcement line is
appended, even though no listing line is emitted. -/
theorem claim2_counterexample :
    (get_top cfg0 [] 0 80 "matchend" "player" [pz]
        (fun r => ((teamplay 0 r : ℤ) : ℚ)) "name" "combat" "support" ""
        [pz])
      = some ⟨["VIP until 50400 !"],
          [⟨"pz", "PZ Top-Player", 50400⟩], ["pz"]⟩
    ∧ teamplay 0 pz = 0 := by
  constructor
  · decide
  · decide

/-- C2 (amended): a record whose metric score is exactly 0 gets no listing
line; in chat mode (where the grant flow is inert) it contributes nothing
at all — no line, no grant, no ledger query — while still occupying a rank
slot in the iteration index; but in matchEnd player mode the grant flow
still runs for it (see the counterexample). -/
theorem claim2_zero_score (cfg : Config) (vips : List VipItem) (now : Int)
    (cp : Nat) (calltype : String) (sortkey : StatRec → ℚ)
    (f s t fo : String) (sm : Nat) (sorted allp rest : List StatRec)
    (iteration : Nat) (sample : StatRec) (h0 : sortkey sample = 0) :
    emit_lines calltype sortkey f s t fo sm sorted allp iteration sample
      = []
    ∧ process cfg vips now cp "chat" calltype sortkey f s t fo sm sorted
        allp (sample :: rest) iteration
      = process cfg vips now cp "chat" calltype sortkey f s t fo sm sorted
        allp rest (iteration + 1) := by
  have he : emit_lines calltype sortkey f s t fo sm sorted allp iteration
      sample = [] := by
    simp [emit_lines, h0]
  refine ⟨he, ?_⟩
  have hf : grant_flow cfg vips now cp "chat" calltype s iteration sample
      = ⟨[], [], [], false⟩ := grant_flow_not_matchend (by decide)
  simp only [process, he, hf]
  simp

/-- Witness for C2 (amended): the zero-scoring `pz` in chat mode
contributes nothing and the tail is processed one slot later. -/
theorem claim2_witness :
    emit_lines "player" (fun r => ((teamplay 0 r : ℤ) : ℚ)) "name"
        "combat" "support" "" 0 [pz, p1] [pz, p1] 1 pz = []
    ∧ process cfg0 [] 0 80 "chat" "player"
        (fun r => ((teamplay 0 r : ℤ) : ℚ)) "name" "combat" "support" "" 0
        [pz, p1] [pz, p1] ([pz, p1]) 1
      = process cfg0 [] 0 80 "chat" "player"
        (fun r => ((teamplay 0 r : ℤ) : ℚ)) "name" "combat" "support" "" 0
        [pz, p1] [pz, p1] [p1] 2 :=
  claim2_zero_score cfg0 [] 0 80 "player"
    (fun r => ((teamplay 0 r : ℤ) : ℚ)) "name" "combat" "support" "" 0
    [pz, p1] [pz, p1] [p1] 1 pz (by decide)

/-- `is_vip_for_less_than_xh` is decided by the first ledger entry of the
player that carries an expiry: absent, or expiring within the delay,
allows a new grant. -/
theorem is_vip_eq_ledger_allows (vips : List VipItem) (pid : String)
    (h : Nat) (now : Int) :
    is_vip_for_less_than_xh vips pid h now = ledger_allows vips pid h now := by
  induction vips with
  | nil => rfl
  | cons item rest ih =>
    cases hexp : item.vip_expiration with
    | none =>
      simp only [is_vip_for_less_than_xh, ledger_allows, firstExpiring,
        hexp] at ih ⊢
      exact ih
    | some e =>
      by_cases hid : item.player_id = pid
      · simp only [is_vip_for_less_than_xh, ledger_allows, firstExpiring,
          hexp, hid, if_pos]
      · simp only [is_vip_for_less_than_xh, ledger_allows, firstExpiring,
          hexp, hid, if_neg, ite_false] at ih ⊢
        exact ih

/-- C1 counterexample: with the stock configuration at match end, `p1`
holds a non-expiring grant (`vip_expiration = none`).  The claim predicts
the already-VIP text and no new grant; the code instead creates a fresh
14-hour grant and emits its announcement, because the ledger scan skips
entries whose expiry is absent. -/
theorem claim1_counterexample :
    (get_top cfg0 [⟨"p1", none⟩] 0 80 "matchend" "player" [p1]
        (fun r => ((teamplay 0 r : ℤ) : ℚ)) "name" "combat" "support" ""
        [p1])
      = some ⟨["P1 (all): 300 ; 50", "VIP until 50400 !"],
          [⟨"p1", "P1 Top-Player", 50400⟩], ["p1"]⟩ := by
  decide

/-- C1 (amended): for a ranked eligible player (grant gates passing, not a
guarded sub-par commander), a new `VIP_HOURS` grant is created exactly
when the player's first ledger entry carrying an expiry is absent or
expires less than `VIP_HOURS` from now (`ledger_allows`); only an entry
expiring `VIP_HOURS` or more away yields the localized already-VIP text
and no grant.  Entries with absent expiry (non-expiring) are skipped by
the scan, so they do not block a new grant.  One ledger query is made
either way. -/
theorem claim1_grant_check (cfg : Config) (vips : List VipItem) (now : Int)
    (cp : Nat) (sd : String) (iteration : Nat) (sample : StatRec)
    (hW : 0 < cfg.VIP_WINNERS) (hH : 0 < cfg.VIP_HOURS)
    (hseed : cfg.SEED_LIMIT ≤ cp) (hsd : sd ≠ "kills")
    (hit : iteration ≤ cfg.VIP_WINNERS)
    (hnc : ¬(sample.role = "armycommander"
      ∧ (((sample.offense : ℚ) + (sample.defense : ℚ)) / 20
            < cfg.VIP_COMMANDER_MIN_PLAYTIME_MINS
         ∨ sample.support < cfg.VIP_COMMANDER_MIN_SUPPORT_SCORE))) :
    (ledger_allows vips sample.player_id cfg.VIP_HOURS now = true →
      grant_flow cfg vips now cp "matchend" "player" sd iteration sample
        = ⟨[(give_xh_vip now sample.player_id sample.name cfg.VIP_HOURS).2],
           [(give_xh_vip now sample.player_id sample.name cfg.VIP_HOURS).1],
           [sample.player_id], false⟩)
    ∧ (ledger_allows vips sample.player_id cfg.VIP_HOURS now = false →
      grant_flow cfg vips now cp "matchend" "player" sd iteration sample
        = ⟨[transl "already_vip"], [], [sample.player_id], false⟩) := by
  constructor
  · intro hl
    unfold grant_flow
    rw [if_pos ⟨rfl, rfl, hW, hH, hseed, hsd, hit⟩, if_neg hnc,
      if_pos (by rw [is_vip_eq_ledger_allows, hl])]
  · intro hl
    unfold grant_flow
    rw [if_pos ⟨rfl, rfl, hW, hH, hseed, hsd, hit⟩, if_neg hnc,
      if_neg (by rw [is_vip_eq_ledger_allows, hl]; simp)]

/-- Witness for C1 (amended): `p1` with a grant expiring soon (timestamp
1000, within 14 hours of `now = 0`) gets a fresh grant; with a grant
expiring far away (timestamp 10^6) the already-VIP text is emitted and no
grant is created. -/
theorem claim1_witness :
    grant_flow cfg0 [⟨"p1", some 1000⟩] 0 80 "matchend" "player" "combat"
        1 p1
      = ⟨[(give_xh_vip 0 "p1" "P1" 14).2], [(give_xh_vip 0 "p1" "P1" 14).1],
         ["p1"], false⟩
    ∧ grant_flow cfg0 [⟨"p1", some 1000000⟩] 0 80 "matchend" "player"
        "combat" 1 p1
      = ⟨[transl "already_vip"], [], ["p1"], false⟩ :=
  ⟨(claim1_grant_check cfg0 [⟨"p1", some 1000⟩] 0 80 "combat" 1 p1
      (by decide) (by decide) (by decide) (by decide) (by decide)
      (fun hc => by exact absurd hc.1 (by decide))).1 (by decide),
   (claim1_grant_check cfg0 [⟨"p1", some 1000000⟩] 0 80 "combat" 1 p1
      (by decide) (by decide) (by decide) (by decide) (by decide)
      (fun hc => by exact absurd hc.1 (by decide))).2 (by decide)⟩

/-- C8 counterexample: two squads, member-detail depth 2 (`cfg8`), chat
mode.  The claim predicts each of the first 2 ranked entries is followed
by exactly one roster line — its own squad's.  The code instead appends,
after EACH qualifying entry, one roster line for each of the top 2 squads:
"able"'s line is followed by both "Alice; Abe" (able's roster) and "Bob"
(baker's roster), and "baker"'s line again by both. -/
theorem claim8_counterexample :
    (get_top cfg8 [] 0 80 "chat" "squad" [sqA, sqB]
        (fun r => ((real_offdef 0 r : ℤ) : ℚ)) "name" "offense" "defense"
        "" [mA1, mA2, mB1]).map (fun r => r.output)
      = some ["■ able (all): 50 ; 10", "Alice; Abe", "Bob",
              "■ baker (axi): 20 ; 10", "Alice; Abe", "Bob"] := by
  decide

/-- C8 (amended): for squad kind with member-detail depth
`show_members > 0`, each ranked non-zero-scoring squad entry within the
first `show_members` slots is followed by `show_members` roster lines —
one per squad of the top `show_members` slice of the sorted order (the
entry's own squad among them), each listing the players of the all-players
bucket whose `(team, unit_name)` equals that squad's `(team, name)` —
rather than by the single roster line of its own squad. -/
theorem claim8_squad_rosters (cfg : Config) (vips : List VipItem)
    (now : Int) (cp : Nat) (callmode : String) (sortkey : StatRec → ℚ)
    (f s t fo : String) (sm : Nat) (sorted allp rest : List StatRec)
    (iteration : Nat) (sample : StatRec) (h0 : sortkey sample ≠ 0)
    (hsm : 0 < sm) (hit : iteration ≤ sm) :
    process cfg vips now cp callmode "squad" sortkey f s t fo sm sorted
        allp (sample :: rest) iteration
      = ⟨(listLine "squad" sortkey f s t fo sample
            :: (sorted.take sm).map (rosterLine allp))
          ++ (process cfg vips now cp callmode "squad" sortkey f s t fo sm
            sorted allp rest (iteration + 1)).output,
         (process cfg vips now cp callmode "squad" sortkey f s t fo sm
           sorted allp rest (iteration + 1)).grants,
         (process cfg vips now cp callmode "squad" sortkey f s t fo sm
           sorted allp rest (iteration + 1)).queries⟩ := by
  have he : emit_lines "squad" sortkey f s t fo sm sorted allp iteration
      sample
      = listLine "squad" sortkey f s t fo sample
        :: (sorted.take sm).map (rosterLine allp) := by
    simp [emit_lines, h0, hsm, hit]
  have hf : grant_flow cfg vips now cp callmode "squad" s iteration sample
      = ⟨[], [], [], false⟩ := grant_flow_not_player (by decide)
  simp only [process, he, hf]
  simp

/-- Witness for C8 (amended): the top squad "able" (score 500, slot 1 of
2) is followed by the rosters of both "able" and "baker". -/
theorem claim8_witness :
    process cfg8 [] 0 80 "chat" "squad"
        (fun r => ((real_offdef 0 r : ℤ) : ℚ)) "name" "offense" "defense"
        "" 2 [sqA, sqB] [mA1, mA2, mB1] ([sqA, sqB]) 1
      = ⟨(listLine "squad" (fun r => ((real_offdef 0 r : ℤ) : ℚ)) "name"
            "offense" "defense" "" sqA
            :: ([sqA, sqB].take 2).map (rosterLine [mA1, mA2, mB1]))
          ++ (process cfg8 [] 0 80 "chat" "squad"
            (fun r => ((real_offdef 0 r : ℤ) : ℚ)) "name" "offense"
            "defense" "" 2 [sqA, sqB] [mA1, mA2, mB1] [sqB] 2).output,
         (process cfg8 [] 0 80 "chat" "squad"
           (fun r => ((real_offdef 0 r : ℤ) : ℚ)) "name" "offense"
           "defense" "" 2 [sqA, sqB] [mA1, mA2, mB1] [sqB] 2).grants,
         (process cfg8 [] 0 80 "chat" "squad"
           (fun r => ((real_offdef 0 r : ℤ) : ℚ)) "name" "offense"
           "defense" "" 2 [sqA, sqB] [mA1, mA2, mB1] [sqB] 2).queries⟩ :=
  claim8_squad_rosters cfg8 [] 0 80 "chat"
    (fun r => ((real_offdef 0 r : ℤ) : ℚ)) "name" "offense" "defense" "" 2
    [sqA, sqB] [mA1, mA2, mB1] [sqB] 1 sqA (by decide) (by decide)
    (by decide)

/-- In chat mode with player kind the loop is the listing alone: one line
per non-zero-scoring record of the slice, in slice order. -/
theorem process_chat_player_eq (cfg : Config) (vips : List VipItem)
    (now : Int) (cp : Nat) (sortkey : StatRec → ℚ) (f s t fo : String)
    (sm : Nat) (sorted allp : List StatRec) :
    ∀ (l : List StatRec) (iteration : Nat),
      process cfg vips now cp "chat" "player" sortkey f s t fo sm sorted
          allp l iteration
        = ⟨(l.filter (fun r => decide (sortkey r ≠ 0))).map
            (listLine "player" sortkey f s t fo), [], []⟩ := by
  intro l
  induction l with
  | nil => intro iteration; rfl
  | cons sample rest ih =>
    intro iteration
    have hf : grant_flow cfg vips now cp "chat" "player" s iteration sample
        = ⟨[], [], [], false⟩ := grant_flow_not_matchend (by decide)
    by_cases h0 : sortkey sample = 0
    · simp [process, hf, ih, emit_lines, h0]
    · simp [process, hf, ih, emit_lines, h0]

/-- C3: the chat/player listing of `get_top` contains, in order, exactly
the lines of the records of the top `TOPS_CHAT` slice of the stable
descending sort whose metric score is non-zero; the filtered slice is
descending in the metric; equal-score records keep their original bucket
order (the sort is stable); and on the bucket with scores
[50, 50, 30, 0, 10] and limit 3 the output is the two 50-scorers in
original order then the 30-scorer, the 0-scorer never appearing. -/
theorem claim3_listing_order (cfg : Config) (vips : List VipItem)
    (now : Int) (cp : Nat) (bucket : List StatRec)
    (sortkey : StatRec → ℚ) (f s t : String) (allp : List StatRec) :
    (get_top cfg vips now cp "chat" "player" bucket sortkey f s t "" allp
      = some ⟨(((sortedDesc sortkey bucket).take cfg.TOPS_CHAT).filter
            (fun r => decide (sortkey r ≠ 0))).map
            (listLine "player" sortkey f s t ""), [], []⟩)
    ∧ List.Pairwise (fun a b => sortkey b ≤ sortkey a)
        (((sortedDesc sortkey bucket).take cfg.TOPS_CHAT).filter
          (fun r => decide (sortkey r ≠ 0)))
    ∧ (∀ v : ℚ,
        (sortedDesc sortkey bucket).filter (fun r => decide (sortkey r = v))
          = bucket.filter (fun r => decide (sortkey r = v)))
    ∧ get_top cfg0 [] 0 80 "chat" "player" [q1, q2, q3, q4, q5]
        (fun r => ((r.combat : Nat) : ℚ)) "name" "combat" "support" "" []
      = some ⟨["Q1 (all): 50 ; 0", "Q2 (axi): 50 ; 0", "Q3 (all): 30 ; 0"],
          [], []⟩ := by
  haveI hto : IsTotal StatRec (fun a b => sortkey b ≤ sortkey a) :=
    ⟨fun a b => le_total _ _⟩
  haveI htr : IsTrans StatRec (fun a b => sortkey b ≤ sortkey a) :=
    ⟨fun a b c hab hbc => le_trans hbc hab⟩
  refine ⟨?_, ?_, ?_, by decide⟩
  · unfold get_top
    rw [if_pos (Or.inl rfl)]
    simp only [reduceIte, String.reduceEq]
    rw [process_chat_player_eq]
  · have hs : List.Pairwise (fun a b => sortkey b ≤ sortkey a)
        (sortedDesc sortkey bucket) := List.sorted_insertionSort _ bucket
    exact List.Pairwise.sublist
      ((List.filter_sublist _).trans (List.take_sublist _ _)) hs
  · intro v
    have hc : (bucket.filter (fun r => decide (sortkey r = v))).Pairwise
        (fun a b => sortkey b ≤ sortkey a) := by
      apply List.pairwise_of_forall_mem_list
      intro a ha b hb
      have ha' : sortkey a = v :=
        of_decide_eq_true (List.mem_filter.mp ha).2
      have hb' : sortkey b = v :=
        of_decide_eq_true (List.mem_filter.mp hb).2
      rw [ha', hb']
    have hsub : List.Sublist (bucket.filter (fun r => decide (sortkey r = v)))
        (sortedDesc sortkey bucket) :=
      List.sublist_insertionSort hc (List.filter_sublist bucket)
    have heq : (bucket.filter (fun r => decide (sortkey r = v))).filter
        (fun r => decide (sortkey r = v))
        = bucket.filter (fun r => decide (sortkey r = v)) :=
      List.filter_eq_self.mpr (fun a ha => (List.mem_filter.mp ha).2)
    have hsub2 : List.Sublist
        (bucket.filter (fun r => decide (sortkey r = v)))
        ((sortedDesc sortkey bucket).filter
          (fun r => decide (sortkey r = v))) := by
      have h2 := hsub.filter (fun r => decide (sortkey r = v))
      rwa [heq] at h2
    have hlen : ((sortedDesc sortkey bucket).filter
          (fun r => decide (sortkey r = v))).length
        = (bucket.filter (fun r => decide (sortkey r = v))).length :=
      ((List.perm_insertionSort _ bucket).filter _).length_eq
    exact (hsub2.eq_of_length hlen.symm).symm

/-- A chat/player board over a one-record bucket with a non-zero score is
that record's single listing line. -/
theorem get_top_chat_player_single (cfg : Config) (vips : List VipItem)
    (now : Int) (cp : Nat) (k : StatRec → ℚ) (f s t fo : String)
    (allp : List StatRec) (p : StatRec) (h0 : k p ≠ 0)
    (hc : 0 < cfg.TOPS_CHAT) :
    get_top cfg vips now cp "chat" "player" [p] k f s t fo allp
      = some ⟨[listLine "player" k f s t fo p], [], []⟩ := by
  unfold get_top
  rw [if_pos (Or.inl rfl)]
  simp only [reduceIte, String.reduceEq]
  rw [process_chat_player_eq]
  have hs : sortedDesc k [p] = [p] := rfl
  rw [hs]
  have ht : ([p] : List StatRec).take cfg.TOPS_CHAT = [p] :=
    List.take_of_length_le (by simpa using hc)
  rw [ht]
  simp [h0]

/-- C9 counterexample: the infantry kills/deaths-ratio board of
`stats_gather` is called with an EMPTY fourth display field, so its line
for `p1` (10 kills, 2 deaths, computed ratio 5) shows the two raw fields
"10 ; 2" — not the single computed rate value 5 the claim requires for
rate metrics. -/
theorem claim9_counterexample :
    ratio p1 = 5
    ∧ (stats_gather cfg0 [] 0 80 "chat" [] [p1] [] [] [] (3/2) (3/2))[3]?
      = some (get_top cfg0 [] 0 80 "chat" "player" [p1] ratio "name"
          "kills" "deaths" "" [p1])
    ∧ get_top cfg0 [] 0 80 "chat" "player" [p1] ratio "name" "kills"
        "deaths" "" [p1]
      = some ⟨["P1 (all): 10 ; 2"], [], []⟩ := by
  have h5 : ratio p1 = 5 := by norm_num [ratio, round1, p1, mkP]
  refine ⟨h5, rfl, ?_⟩
  rw [get_top_chat_player_single cfg0 [] 0 80 ratio "name" "kills"
    "deaths" "" [p1] p1 (by rw [h5]; norm_num) (by decide)]
  decide

/-- C9 (amended): the display mode is selected by the fourth display
field, not by whether the metric is a rate: among the nine boards only the
kills/min board passes a non-empty fourth field and shows the single
computed rate value; the kills/deaths-ratio board passes an empty fourth
field and shows the two raw fields `kills ; deaths`. -/
theorem claim9_display_mode (cfg : Config) (vips : List VipItem)
    (now : Int) (cp : Nat) (p : StatRec) (w1 w2 : ℚ)
    (hc : 0 < cfg.TOPS_CHAT) (hr : ratio p ≠ 0) (hk : killrate p ≠ 0) :
    (stats_gather cfg vips now cp "chat" [] [p] [] [] [] w1 w2)[3]?
      = some (some ⟨[p.name ++ " (" ++ transl p.team ++ "): "
          ++ toString p.kills ++ " ; " ++ toString p.deaths], [], []⟩)
    ∧ (stats_gather cfg vips now cp "chat" [] [p] [] [] [] w1 w2)[4]?
      = some (some ⟨[p.name ++ " (" ++ transl p.team ++ "): "
          ++ toString (killrate p)], [], []⟩) := by
  have e3 : (stats_gather cfg vips now cp "chat" [] [p] [] [] [] w1 w2)[3]?
      = some (get_top cfg vips now cp "chat" "player" [p] ratio "name"
        "kills" "deaths" "" [p]) := rfl
  have e4 : (stats_gather cfg vips now cp "chat" [] [p] [] [] [] w1 w2)[4]?
      = some (get_top cfg vips now cp "chat" "player" [p] killrate "name"
        "kills" "offense" "defense" [p]) := rfl
  constructor
  · rw [e3, get_top_chat_player_single cfg vips now cp ratio "name" "kills"
      "deaths" "" [p] p hr hc]
    simp [listLine, fieldStr]
  · rw [e4, get_top_chat_player_single cfg vips now cp killrate "name"
      "kills" "offense" "defense" [p] p hk hc]
    simp [listLine, fieldStr]

/-- Witness for C9 (amended): `p1` (10 kills, 2 deaths, ratio 5,
killrate 1) under the stock configuration. -/
theorem claim9_witness :
    (stats_gather cfg0 [] 0 80 "chat" [] [p1] [] [] [] (3/2) (3/2))[3]?
      = some (some ⟨[p1.name ++ " (" ++ transl p1.team ++ "): "
          ++ toString p1.kills ++ " ; " ++ toString p1.deaths], [], []⟩)
    ∧ (stats_gather cfg0 [] 0 80 "chat" [] [p1] [] [] [] (3/2) (3/2))[4]?
      = some (some ⟨[p1.name ++ " (" ++ transl p1.team ++ "): "
          ++ toString (killrate p1)], [], []⟩) :=
  claim9_display_mode cfg0 [] 0 80 p1 (3/2) (3/2) (by decide)
    (by norm_num [ratio, round1, p1, mkP])
    (by norm_num [killrate, round1, p1, mkP])

/-- C6: `ratio` and `killrate` are total and never raise on
zero-denominator inputs: `ratio` returns `round(kills / max(deaths, 1),
1)`, so `ratio (deaths := 0, kills := 5) = 5.0`; `killrate` returns 0 when
`kills = 0` or when `offense` and `defense` are both 0 (so
`killrate (kills := 5, offense := 0, defense := 0) = 0`), and otherwise
`round(kills / ((offense + defense) / 20), 1)`. -/
theorem claim6_ratio_killrate_total :
    (∀ r : StatRec, ratio r = round1 ((r.kills : ℚ) / max (r.deaths : ℚ) 1))
    ∧ (∀ r : StatRec, r.kills = 0 ∨ (r.offense = 0 ∧ r.defense = 0) →
        killrate r = 0)
    ∧ (∀ r : StatRec, r.kills ≠ 0 → ¬(r.offense = 0 ∧ r.defense = 0) →
        killrate r
          = round1 ((r.kills : ℚ) / (((r.offense : ℚ) + (r.defense : ℚ)) / 20)))
    ∧ ratio (mkP "x" "X" "allies" "r" 5 0 0 0 0 0) = 5
    ∧ killrate (mkP "x" "X" "allies" "r" 5 0 0 0 0 0) = 0 := by
  refine ⟨?_, ?_, ?_, by norm_num [ratio, round1, mkP], by norm_num [killrate, mkP]⟩
  · intro r
    by_cases h : r.deaths = 0
    · norm_num [ratio, h]
    · have h1 : (1 : ℚ) ≤ (r.deaths : ℚ) := by
        exact_mod_cast Nat.one_le_iff_ne_zero.mpr h
      simp [ratio, h, max_eq_left h1]
  · rintro r (hk | ⟨ho, hd⟩)
    · simp [killrate, hk]
    · by_cases hk : r.kills = 0
      · simp [killrate, hk]
      · simp [killrate, hk, ho, hd]
  · intro r hk hod
    simp [killrate, hk, hod]

/-- Witness for C6: the zero-returning and the generic branch of
`killrate`, instantiated at concrete records. -/
theorem claim6_witness :
    killrate (mkP "w" "W" "axis" "r" 0 3 0 7 8 0) = 0
    ∧ killrate (mkP "v" "V" "axis" "r" 7 0 0 60 40 0)
        = round1 (((mkP "v" "V" "axis" "r" 7 0 0 60 40 0).kills : ℚ)
            / ((((mkP "v" "V" "axis" "r" 7 0 0 60 40 0).offense : ℚ)
                + ((mkP "v" "V" "axis" "r" 7 0 0 60 40 0).defense : ℚ)) / 20)) :=
  ⟨claim6_ratio_killrate_total.2.1 _ (Or.inl rfl),
   claim6_ratio_killrate_total.2.2.1 _ (by decide) (by decide)⟩

/-- C7: `real_offdef` and `teamplay` computed with weight `w` equal the
same functions computed with `|w|`, and with weight exactly 0 they return
the unweighted raw product `offense * defense` and the unweighted raw sum
`combat + support` respectively. -/
theorem claim7_weight_sign_and_zero (w : ℚ) (r : StatRec) :
    real_offdef w r = real_offdef |w| r
    ∧ teamplay w r = teamplay |w| r
    ∧ real_offdef 0 r = (r.offense : ℤ) * (r.defense : ℤ)
    ∧ teamplay 0 r = (r.combat : ℤ) + (r.support : ℤ) := by
  refine ⟨?_, ?_, by simp [real_offdef], by simp [teamplay]⟩
  · by_cases h : w = 0
    · simp [h]
    · have h2 : |w| ≠ 0 := by simpa using h
      simp [real_offdef, h, h2, abs_abs]
  · by_cases h : w = 0
    · simp [h]
    · have h2 : |w| ≠ 0 := by simpa using h
      simp [teamplay, h, h2, abs_abs]

/-- C10: `get_top` is only defined for `callmode` "chat" or "matchend":
for every other `callmode` it fails (the unbound-local `tops_limit`,
modelled as `none`) before producing any output, whatever the bucket;
under the precondition `callmode ∈ {"chat", "matchend"}` the listing path
is total (`isSome`). -/
theorem claim10_callmode_domain (cfg : Config) (vips : List VipItem)
    (now : Int) (cp : Nat) (callmode calltype : String)
    (bucket : List StatRec) (sortkey : StatRec → ℚ)
    (f s t fo : String) (allp : List StatRec) :
    (callmode ≠ "chat" → callmode ≠ "matchend" →
      get_top cfg vips now cp callmode calltype bucket sortkey f s t fo allp
        = none)
    ∧ (callmode = "chat" ∨ callmode = "matchend" →
      (get_top cfg vips now cp callmode calltype bucket sortkey f s t fo
        allp).isSome) := by
  constructor
  · intro h1 h2
    unfold get_top
    rw [if_neg (not_or.mpr ⟨h1, h2⟩)]
  · intro h
    unfold get_top
    rw [if_pos h]
    simp

/-- Witness for C10: an unexpected `callmode` "boom" yields `none`; the
legitimate `callmode` "chat" yields a result. -/
theorem claim10_witness :
    get_top cfg0 [] 0 0 "boom" "player" [] (fun _ => 0) "name" "combat"
      "support" "" [] = none
    ∧ (get_top cfg0 [] 0 0 "chat" "player" [] (fun _ => 0) "name" "combat"
      "support" "" []).isSome :=
  ⟨(claim10_callmode_domain cfg0 [] 0 0 "boom" "player" [] (fun _ => 0)
      "name" "combat" "support" "" []).1 (by decide) (by decide),
   (claim10_callmode_domain cfg0 [] 0 0 "chat" "player" [] (fun _ => 0)
      "name" "combat" "support" "" []).2 (Or.inl rfl)⟩

end HLLTopStats
